import Mathlib

/-!
Verification of the multi-instance Hailo detection scripts
(`multi_instance_detection.py`, `multi_instance_yolo11l.py`,
`multi_instance_detection_old.py`).

The development shallowly embeds the per-instance callback state, the
sliding-window FPS estimators, the pipeline-string transformations, the
per-instance runner wrapper, the performance-monitor tick and the main
health loop, and proves or refutes the specification's claims about them.
Wall-clock timestamps are modelled as rationals.
-/

namespace MultiInstanceDetection

/-! ## Sliding-window rate estimation

`calculate_fps` in `multi_instance_detection.py` (capacity 60) and in
`multi_instance_detection_old.py` (capacity 30) append the current time to
`frame_times`, pop the oldest entry once the list exceeds the capacity, and
recompute the FPS as `(len - 1) / (last - first)` whenever the window has at
least two entries and a positive span. -/

/-- Append `t` to the window `ts` and, exactly as the Python
`self.frame_times.append(...)` followed by
`if len(self.frame_times) > cap: self.frame_times.pop(0)`, drop the oldest
entry when the grown list exceeds `cap`. -/
def slidingWindow (cap : ℕ) (ts : List ℚ) (t : ℚ) : List ℚ :=
  let ft := ts ++ [t]
  if cap < ft.length then ft.tail else ft

/-- Recompute the FPS from the window `ft`, keeping the previous value
`prev` when fewer than two samples are present or the span is not positive,
as in the Python guard `if len(self.frame_times) >= 2: ... if time_span > 0`. -/
def windowFps (prev : ℚ) (ft : List ℚ) : ℚ :=
  if 2 ≤ ft.length then
    if 0 < ft.getLast?.getD 0 - ft.head?.getD 0 then
      ((ft.length : ℚ) - 1) / (ft.getLast?.getD 0 - ft.head?.getD 0)
    else prev
  else prev

/-- Per-instance callback state of `EnhancedInstanceCallback` in
`multi_instance_detection.py`: frame counter (from the base class
`increment`/`get_count`), start time, current FPS, per-frame and cumulative
detection counters, and the retained frame-time window. -/
structure EnhancedInstanceCallback where
  instance_id : ℕ
  start_time : ℚ
  count : ℕ
  current_fps : ℚ
  detection_count : ℕ
  total_detections : ℕ
  frame_times : List ℚ
deriving DecidableEq

/-- Constructor `EnhancedInstanceCallback.__init__`: all counters start at
zero, `frame_times` is empty, and the start time is the current time. -/
def EnhancedInstanceCallback.init (instance_id : ℕ) (now : ℚ) :
    EnhancedInstanceCallback :=
  { instance_id := instance_id, start_time := now, count := 0,
    current_fps := 0, detection_count := 0, total_detections := 0,
    frame_times := [] }

/-- `EnhancedInstanceCallback.calculate_fps` (capacity 60): append the
current time, evict the oldest entry past 60, and recompute the FPS. -/
def EnhancedInstanceCallback.calculate_fps (s : EnhancedInstanceCallback)
    (current_time : ℚ) : EnhancedInstanceCallback :=
  let ft := slidingWindow 60 s.frame_times current_time
  { s with frame_times := ft, current_fps := windowFps s.current_fps ft }

/-- Fold a whole sequence of timestamps through `calculate_fps`. -/
def EnhancedInstanceCallback.recordAll (s : EnhancedInstanceCallback)
    (ts : List ℚ) : EnhancedInstanceCallback :=
  ts.foldl EnhancedInstanceCallback.calculate_fps s

/-! ## Partition (vdevice-group) assignment

`get_pipeline_string` in both `multi_instance_detection.py` and
`multi_instance_yolo11l.py` gives instance `i` the vdevice group `i + 1`;
`main` launches instances `0 .. num_instances - 1`. -/

/-- Partition assigned to a worker: `vdevice-group-id={self.instance_id + 1}`. -/
def vdevice_group_id (instance_id : ℕ) : ℕ := instance_id + 1

/-- Partitions assigned by launching instances `0 .. n-1`
(`for i in range(num_instances)` in `main`). -/
def launchPartitions (n : ℕ) : List ℕ := (List.range n).map vdevice_group_id

/-- Worker count fixed in `main`: `num_instances = 4`. -/
def num_instances : ℕ := 4

/-- C2: after launching `n` workers, worker `i` holds partition `i + 1`, the
assigned partitions are pairwise distinct, there are exactly `n` of them, and
they all lie in `{1 .. maxPartitions}` whenever `n ≤ maxPartitions`. -/
theorem launchPartitions_distinct_in_range (n maxPartitions : ℕ)
    (h : n ≤ maxPartitions) :
    (∀ i, i < n → (launchPartitions n).getD i 0 = i + 1)
    ∧ (launchPartitions n).Nodup
    ∧ (launchPartitions n).length = n
    ∧ ∀ p ∈ launchPartitions n, 1 ≤ p ∧ p ≤ maxPartitions := by
  refine ⟨?_, ?_, ?_, ?_⟩
  · intro i hi
    simp [launchPartitions, vdevice_group_id, List.getD_eq_getElem?_getD,
      List.getElem?_map, List.getElem?_range hi]
  · exact (List.nodup_range n).map (fun a b hab => by
      simpa [vdevice_group_id] using hab)
  · simp [launchPartitions]
  · intro p hp
    rcases List.mem_map.mp hp with ⟨i, hi, rfl⟩
    have : i < n := List.mem_range.mp hi
    unfold vdevice_group_id
    omega

/-- Witness for C2 at the source's fixed configuration of four workers and
four partitions. -/
theorem launchPartitions_distinct_in_range_witness :
    (∀ i, i < num_instances →
        (launchPartitions num_instances).getD i 0 = i + 1)
    ∧ (launchPartitions num_instances).Nodup
    ∧ (launchPartitions num_instances).length = num_instances
    ∧ ∀ p ∈ launchPartitions num_instances, 1 ≤ p ∧ p ≤ 4 :=
  launchPartitions_distinct_in_range num_instances 4 (by decide)

/-! ## The older variant (`multi_instance_detection_old.py`)

`MultiInstanceCallback.calculate_fps` there is the same sliding-window
algorithm with capacity 30 and the rate stored in field `fps`. -/

/-- Per-instance callback state of `MultiInstanceCallback` in
`multi_instance_detection_old.py`. -/
structure OldMultiInstanceCallback where
  instance_id : ℕ
  last_time : ℚ
  frame_times : List ℚ
  fps : ℚ
  detection_count : ℕ
  count : ℕ
deriving DecidableEq

/-- Constructor of the old `MultiInstanceCallback`. -/
def OldMultiInstanceCallback.init (instance_id : ℕ) (now : ℚ) :
    OldMultiInstanceCallback :=
  { instance_id := instance_id, last_time := now, frame_times := [],
    fps := 0, detection_count := 0, count := 0 }

/-- `calculate_fps` of the old variant (capacity 30). -/
def OldMultiInstanceCallback.calculate_fps (s : OldMultiInstanceCallback)
    (current_time : ℚ) : OldMultiInstanceCallback :=
  let ft := slidingWindow 30 s.frame_times current_time
  { s with frame_times := ft, fps := windowFps s.fps ft }

/-! ## Window lemmas -/

/-- Last `cap` entries of `l` (all of `l` when `l` has at most `cap`). -/
def windowOf (cap : ℕ) (l : List ℚ) : List ℚ := l.drop (l.length - cap)

theorem windowOf_length (cap : ℕ) (l : List ℚ) :
    (windowOf cap l).length = min l.length cap := by
  simp only [windowOf, List.length_drop]
  omega

theorem tail_append_singleton (xs : List ℚ) (t : ℚ) (h : xs ≠ []) :
    (xs ++ [t]).tail = xs.tail ++ [t] := by
  cases xs with
  | nil => exact absurd rfl h
  | cons a l => simp

/-- One `slidingWindow` step sends the retained window of `l` to the
retained window of `l ++ [t]`. -/
theorem slidingWindow_windowOf (cap : ℕ) (hcap : 1 ≤ cap) (l : List ℚ)
    (t : ℚ) : slidingWindow cap (windowOf cap l) t = windowOf cap (l ++ [t]) := by
  rcases le_or_lt l.length cap with h | h
  · have h0 : l.length - cap = 0 := by omega
    rcases eq_or_lt_of_le h with he | hlt
    · simp only [windowOf, h0, List.drop_zero, slidingWindow,
        List.length_append, List.length_singleton]
      rw [if_pos (by omega), he, Nat.add_sub_cancel_left, List.drop_one]
    · simp only [windowOf, h0, List.drop_zero, slidingWindow,
        List.length_append, List.length_singleton,
        Nat.sub_eq_zero_of_le (by omega : l.length + 1 ≤ cap)]
      rw [if_neg (by omega)]
  · have hlen : (windowOf cap l).length = cap := by
      rw [windowOf_length]; omega
    have hne : windowOf cap l ≠ [] := by
      intro hnil
      rw [hnil] at hlen
      simp at hlen
      omega
    simp only [slidingWindow, List.length_append, List.length_singleton, hlen]
    rw [if_pos (by omega), tail_append_singleton _ _ hne]
    simp only [windowOf, List.length_append, List.length_singleton,
      List.tail_drop]
    rw [List.drop_append_of_le_length (by omega)]
    congr 2
    omega

/-- One `slidingWindow` step keeps the window within `cap` entries, and when
the grown list exceeds `cap` the evicted entry is the oldest one. -/
theorem slidingWindow_bounded (cap : ℕ) (hcap : 1 ≤ cap) (l : List ℚ) (t : ℚ)
    (h : l.length ≤ cap) :
    (slidingWindow cap l t).length ≤ cap
    ∧ (cap < (l ++ [t]).length → slidingWindow cap l t = l.tail ++ [t]) := by
  constructor
  · simp only [slidingWindow]
    split
    · simp only [List.length_tail, List.length_append, List.length_singleton]
      omega
    · rename_i hle
      simp only [List.length_append, List.length_singleton] at hle ⊢
      omega
  · intro hgt
    have hlne : l ≠ [] := by
      intro hnil
      rw [hnil] at hgt
      simp at hgt
      omega
    simp only [slidingWindow, if_pos hgt]
    exact tail_append_singleton l t hlne

/-- Folding `calculate_fps` over `ts` from the initial state leaves exactly
the last 60 timestamps as the retained window. -/
theorem recordAll_frame_times (i : ℕ) (t0 : ℚ) (ts : List ℚ) :
    ((EnhancedInstanceCallback.init i t0).recordAll ts).frame_times
      = windowOf 60 ts := by
  induction ts using List.reverseRecOn with
  | nil => rfl
  | append_singleton l t ih =>
      rw [EnhancedInstanceCallback.recordAll, List.foldl_concat]
      show ((EnhancedInstanceCallback.recordAll _ l).calculate_fps t).frame_times = _
      rw [show ((EnhancedInstanceCallback.recordAll
            (EnhancedInstanceCallback.init i t0) l).calculate_fps t).frame_times
          = slidingWindow 60 ((EnhancedInstanceCallback.init i t0).recordAll
              l).frame_times t from rfl,
        ih, slidingWindow_windowOf 60 (by norm_num)]

/-- In a strictly ascending list with at least two entries, the first entry
is strictly below the last one. -/
theorem head_lt_getLast_of_pairwise (w : List ℚ) (h2 : 2 ≤ w.length)
    (hp : w.Pairwise (· < ·)) : w.head?.getD 0 < w.getLast?.getD 0 := by
  rcases w with _ | ⟨a, _ | ⟨b, r⟩⟩
  · simp at h2
  · simp at h2
  · have hne : (b :: r) ≠ [] := by simp
    obtain ⟨c, hc⟩ := Option.isSome_iff_exists.mp (List.getLast?_isSome.mpr hne)
    have hmem : c ∈ b :: r := List.mem_of_getLast?_eq_some hc
    have hac : a < c := (List.pairwise_cons.mp hp).1 c hmem
    rw [List.getLast?_cons_cons, hc]
    simpa using hac

/-! ## The yolo11l variant's estimator

`MultiInstanceCallback.calculate_fps` in `multi_instance_yolo11l.py` is not a
sliding window: it counts frames since the last recomputation and, once 30
frames have accumulated, sets the FPS to `30 / (now - last_fps_time)` and
resets the counter. -/

/-- Per-instance callback state of `MultiInstanceCallback` in
`multi_instance_yolo11l.py`. -/
structure MultiInstanceCallback where
  instance_id : ℕ
  start_time : ℚ
  last_fps_time : ℚ
  fps_frame_count : ℕ
  current_fps : ℚ
  count : ℕ
  detection_count : ℕ
  total_detections : ℕ
deriving DecidableEq

/-- Constructor `MultiInstanceCallback.__init__` of the yolo11l variant. -/
def MultiInstanceCallback.init (instance_id : ℕ) (now : ℚ) :
    MultiInstanceCallback :=
  { instance_id := instance_id, start_time := now, last_fps_time := now,
    fps_frame_count := 0, current_fps := 0, count := 0, detection_count := 0,
    total_detections := 0 }

/-- `MultiInstanceCallback.calculate_fps`: increment `fps_frame_count`; once
it reaches 30, recompute `current_fps` as `fps_frame_count / time_diff` when
`time_diff > 0`, then zero the counter and reset `last_fps_time`. -/
def MultiInstanceCallback.calculate_fps (s : MultiInstanceCallback)
    (current_time : ℚ) : MultiInstanceCallback :=
  let n := s.fps_frame_count + 1
  if 30 ≤ n then
    { s with
      current_fps :=
        if 0 < current_time - s.last_fps_time then
          (n : ℚ) / (current_time - s.last_fps_time)
        else s.current_fps,
      fps_frame_count := 0,
      last_fps_time := current_time }
  else { s with fps_frame_count := n }

/-- Fold a whole sequence of timestamps through the yolo11l `calculate_fps`. -/
def MultiInstanceCallback.recordAll (s : MultiInstanceCallback)
    (ts : List ℚ) : MultiInstanceCallback :=
  ts.foldl MultiInstanceCallback.calculate_fps s

/-- C1 counterexample: in the yolo11l variant cited by the claim, two records
at the strictly increasing timestamps 1 and 2 leave the rate at 0, not at the
claimed `(min 2 cap - 1) / (2 - 1) = 1`. -/
theorem yolo11l_rate_after_two_records_ne_claimed :
    ((MultiInstanceCallback.init 0 0).recordAll [1, 2]).current_fps
      ≠ (((min 2 30 : ℕ) : ℚ) - 1) / ((2 : ℚ) - 1) := by
  norm_num [MultiInstanceCallback.recordAll, MultiInstanceCallback.calculate_fps,
    MultiInstanceCallback.init]

/-- C1 (amended to the sliding-window estimator of
`EnhancedInstanceCallback.calculate_fps`): for strictly increasing recorded
timestamps, after at least two records the rate equals
`(min n 60 - 1) / (last of window - first of window)`; after zero or one
records, or whenever the window span is zero, the rate is exactly 0. -/
theorem enhanced_rate_formula (i : ℕ) (t0 : ℚ) (ts : List ℚ)
    (hmono : ts.Chain' (· < ·)) :
    (ts.length ≤ 1 →
      ((EnhancedInstanceCallback.init i t0).recordAll ts).current_fps = 0)
    ∧ (2 ≤ ts.length →
      ((EnhancedInstanceCallback.init i t0).recordAll ts).current_fps
        = (((min ts.length 60 : ℕ) : ℚ) - 1)
          / (((EnhancedInstanceCallback.init i t0).recordAll
                ts).frame_times.getLast?.getD 0
             - ((EnhancedInstanceCallback.init i t0).recordAll
                ts).frame_times.head?.getD 0))
    ∧ (((EnhancedInstanceCallback.init i t0).recordAll
            ts).frame_times.getLast?.getD 0
          - ((EnhancedInstanceCallback.init i t0).recordAll
            ts).frame_times.head?.getD 0 = 0 →
      ((EnhancedInstanceCallback.init i t0).recordAll ts).current_fps = 0) := by
  have hpw : (windowOf 60 ts).Pairwise (· < ·) :=
    List.Pairwise.sublist (List.drop_sublist _ _)
      (List.chain'_iff_pairwise.mp hmono)
  have hA : ts.length ≤ 1 →
      ((EnhancedInstanceCallback.init i t0).recordAll ts).current_fps = 0 := by
    intro h1
    rcases ts with _ | ⟨t, _ | ⟨t2, ts'⟩⟩
    · rfl
    · simp [EnhancedInstanceCallback.recordAll,
        EnhancedInstanceCallback.calculate_fps, EnhancedInstanceCallback.init,
        slidingWindow, windowFps]
    · simp at h1
  have hB : 2 ≤ ts.length →
      ((EnhancedInstanceCallback.init i t0).recordAll ts).current_fps
        = (((min ts.length 60 : ℕ) : ℚ) - 1)
          / (((EnhancedInstanceCallback.init i t0).recordAll
                ts).frame_times.getLast?.getD 0
             - ((EnhancedInstanceCallback.init i t0).recordAll
                ts).frame_times.head?.getD 0) := by
    intro h2
    obtain ⟨l, t, rfl⟩ : ∃ L b, ts = L ++ [b] := by
      rcases ts.eq_nil_or_concat with rfl | ⟨L, b, hts⟩
      · simp at h2
      · exact ⟨L, b, by simpa [List.concat_eq_append] using hts⟩
    have hfold : (EnhancedInstanceCallback.init i t0).recordAll (l ++ [t])
        = ((EnhancedInstanceCallback.init i t0).recordAll l).calculate_fps t := by
      rw [EnhancedInstanceCallback.recordAll, List.foldl_concat]
      rfl
    have hsw : slidingWindow 60
          ((EnhancedInstanceCallback.init i t0).recordAll l).frame_times t
        = windowOf 60 (l ++ [t]) := by
      rw [recordAll_frame_times]
      exact slidingWindow_windowOf 60 (by norm_num) l t
    have hlenw : (windowOf 60 (l ++ [t])).length = min (l ++ [t]).length 60 :=
      windowOf_length 60 (l ++ [t])
    have h2w : 2 ≤ (windowOf 60 (l ++ [t])).length := by
      rw [hlenw]
      simp only [List.length_append, List.length_singleton] at h2 ⊢
      omega
    have hspan : 0 < (windowOf 60 (l ++ [t])).getLast?.getD 0
        - (windowOf 60 (l ++ [t])).head?.getD 0 :=
      sub_pos.mpr (head_lt_getLast_of_pairwise _ h2w hpw)
    rw [hfold]
    show windowFps _ (slidingWindow 60 _ t)
        = _ / ((slidingWindow 60 _ t).getLast?.getD 0
               - (slidingWindow 60 _ t).head?.getD 0)
    rw [hsw, windowFps, if_pos h2w, if_pos hspan, hlenw]
  refine ⟨hA, hB, ?_⟩
  intro hz
  rcases le_or_lt ts.length 1 with h1 | h1
  · exact hA h1
  · exfalso
    have h2w : 2 ≤ (windowOf 60 ts).length := by
      rw [windowOf_length]
      omega
    have hspan : 0 < (windowOf 60 ts).getLast?.getD 0
        - (windowOf 60 ts).head?.getD 0 :=
      sub_pos.mpr (head_lt_getLast_of_pairwise _ h2w hpw)
    rw [recordAll_frame_times] at hz
    rw [hz] at hspan
    exact lt_irrefl 0 hspan

/-- Witness for the amended C1: recording the timestamps 0, 1, 2 yields a
rate of `(min 3 60 - 1) / (last - first)` over the retained window. -/
theorem enhanced_rate_formula_witness :
    ((EnhancedInstanceCallback.init 0 0).recordAll [0, 1, 2]).current_fps
      = (((min 3 60 : ℕ) : ℚ) - 1)
        / (((EnhancedInstanceCallback.init 0 0).recordAll
              [0, 1, 2]).frame_times.getLast?.getD 0
           - ((EnhancedInstanceCallback.init 0 0).recordAll
              [0, 1, 2]).frame_times.head?.getD 0) :=
  (enhanced_rate_formula 0 0 [0, 1, 2]
    (by norm_num [List.chain'_cons, List.chain'_singleton])).2.1 (by norm_num)

/-- C4: a `calculate_fps` step keeps the retained window within the variant's
fixed capacity (60 in `multi_instance_detection.py`, 30 in
`multi_instance_detection_old.py`), and when the capacity would be exceeded
the evicted entry is the oldest one. -/
theorem calculate_fps_window_bounded (s : EnhancedInstanceCallback)
    (s2 : OldMultiInstanceCallback) (t : ℚ)
    (h : s.frame_times.length ≤ 60) (h2 : s2.frame_times.length ≤ 30) :
    ((s.calculate_fps t).frame_times.length ≤ 60
      ∧ (60 < (s.frame_times ++ [t]).length →
          (s.calculate_fps t).frame_times = s.frame_times.tail ++ [t]))
    ∧ ((s2.calculate_fps t).frame_times.length ≤ 30
      ∧ (30 < (s2.frame_times ++ [t]).length →
          (s2.calculate_fps t).frame_times = s2.frame_times.tail ++ [t])) := by
  constructor
  · simpa [EnhancedInstanceCallback.calculate_fps] using
      slidingWindow_bounded 60 (by norm_num) s.frame_times t h
  · simpa [OldMultiInstanceCallback.calculate_fps] using
      slidingWindow_bounded 30 (by norm_num) s2.frame_times t h2

/-- Witness for C4 at the two variants' initial states. -/
theorem calculate_fps_window_bounded_witness :
    ((((EnhancedInstanceCallback.init 0 0).calculate_fps 1).frame_times.length ≤ 60
      ∧ (60 < ((EnhancedInstanceCallback.init 0 0).frame_times ++ [1]).length →
          ((EnhancedInstanceCallback.init 0 0).calculate_fps 1).frame_times
            = (EnhancedInstanceCallback.init 0 0).frame_times.tail ++ [1]))
    ∧ (((OldMultiInstanceCallback.init 0 0).calculate_fps 1).frame_times.length ≤ 30
      ∧ (30 < ((OldMultiInstanceCallback.init 0 0).frame_times ++ [1]).length →
          ((OldMultiInstanceCallback.init 0 0).calculate_fps 1).frame_times
            = (OldMultiInstanceCallback.init 0 0).frame_times.tail ++ [1]))) :=
  calculate_fps_window_bounded (EnhancedInstanceCallback.init 0 0)
    (OldMultiInstanceCallback.init 0 0) 1 (by decide) (by decide)

/-! ## Per-frame callback (`enhanced_callback` in `multi_instance_detection.py`)

The probe callback first calls `user_data.increment()` and
`user_data.calculate_fps()`, then fetches the buffer; a `None` buffer causes
an early `Gst.PadProbeReturn.OK`. ROI parsing is modelled all-or-nothing: a
successful parse yields the detection labels, a parsing exception yields an
error and leaves `detections_this_frame` empty. -/

/-- Return value of a GStreamer pad probe as used by the callbacks. -/
inductive PadProbeReturn
  | OK
deriving DecidableEq

/-- The `enhanced_callback` closure produced by `create_enhanced_callback`. -/
def enhanced_callback (s : EnhancedInstanceCallback) (now : ℚ)
    (buffer : Option (Except String (List String))) :
    EnhancedInstanceCallback × PadProbeReturn :=
  let s1 : EnhancedInstanceCallback := { s with count := s.count + 1 }
  let s2 := s1.calculate_fps now
  match buffer with
  | none => (s2, PadProbeReturn.OK)
  | some (Except.ok dets) =>
      ({ s2 with
          total_detections := s2.total_detections + dets.length
          detection_count := dets.length }, PadProbeReturn.OK)
  | some (Except.error _) =>
      ({ s2 with detection_count := 0 }, PadProbeReturn.OK)

/-- C10: the callback increments the frame counter and records the timestamp
before examining the buffer, so with a `None` buffer it still advances the
counter and the rate window, returns `OK`, and leaves both detection
counters unchanged. -/
theorem enhanced_callback_none_buffer (s : EnhancedInstanceCallback)
    (now : ℚ) :
    (enhanced_callback s now none).2 = PadProbeReturn.OK
    ∧ (enhanced_callback s now none).1.count = s.count + 1
    ∧ (enhanced_callback s now none).1.frame_times
        = slidingWindow 60 s.frame_times now
    ∧ (enhanced_callback s now none).1.total_detections = s.total_detections
    ∧ (enhanced_callback s now none).1.detection_count = s.detection_count :=
  ⟨rfl, rfl, rfl, rfl, rfl⟩

/-! ## Global instance registry (`instance_callbacks`)

`YOLOv11lDetectionApp.__init__` builds a fresh `EnhancedInstanceCallback`
and stores it with `instance_callbacks[instance_id] = user_data`,
overwriting any entry already present for that index. -/

/-- Effect of constructing a `YOLOv11lDetectionApp(instance_id)` on the
module-level `instance_callbacks` dictionary. -/
def register_instance (m : ℕ → Option EnhancedInstanceCallback) (i : ℕ)
    (now : ℚ) : ℕ → Option EnhancedInstanceCallback :=
  fun j => if j = i then some (EnhancedInstanceCallback.init i now) else m j

/-- Registry with one worker entry that has accumulated five detections over
seven frames. -/
def sampleStats : ℕ → Option EnhancedInstanceCallback :=
  fun j =>
    if j = 0 then
      some { EnhancedInstanceCallback.init 0 0 with
             total_detections := 5, count := 7 }
    else none

/-- C5 counterexample: re-registering worker 0 (a restart) replaces its
entry, dropping the cumulative detection counter from 5 back to 0. -/
theorem register_instance_resets_counters :
    Option.map EnhancedInstanceCallback.total_detections (sampleStats 0)
      = some 5
    ∧ Option.map EnhancedInstanceCallback.total_detections
        (register_instance sampleStats 0 1 0) = some 0 :=
  ⟨rfl, rfl⟩

/-- C5 (amended): re-registering a worker index replaces its entry with a
freshly initialised callback (resetting the cumulative counters); entries at
other indices are untouched and no entry is ever deleted. -/
theorem register_instance_overwrites (m : ℕ → Option EnhancedInstanceCallback)
    (i j : ℕ) (now : ℚ) :
    register_instance m i now i = some (EnhancedInstanceCallback.init i now)
    ∧ (j ≠ i → register_instance m i now j = m j)
    ∧ ((m j).isSome → (register_instance m i now j).isSome) := by
  refine ⟨by simp [register_instance], ?_, ?_⟩
  · intro hji
    simp [register_instance, hji]
  · intro hs
    by_cases hji : j = i
    · subst hji
      simp [register_instance]
    · simpa [register_instance, hji] using hs

/-- Witness for the amended C5: re-registering worker 0 leaves the (absent)
entry of worker 1 unchanged. -/
theorem register_instance_overwrites_witness :
    register_instance sampleStats 0 1 1 = sampleStats 1 :=
  (register_instance_overwrites sampleStats 0 1 1).2.1 (by decide)

/-! ## Performance dashboard (`monitor_performance`)

One tick of the monitoring thread: per worker,
`avg_fps = get_count() / runtime if runtime > 0 else 0`; the combined FPS is
the sum; `efficiency = (total_fps / (len * 30)) * 100 if len > 0 else 0`. -/

/-- The figures printed by one dashboard tick. -/
structure DashboardReport where
  total_fps : ℚ
  total_frames : ℕ
  total_detections : ℕ
  num_reported : ℕ
  efficiency : ℚ
deriving DecidableEq

/-- Per-worker average FPS with the tick's zero-runtime guard. -/
def avg_fps (now : ℚ) (c : EnhancedInstanceCallback) : ℚ :=
  if 0 < now - c.start_time then (c.count : ℚ) / (now - c.start_time) else 0

/-- One tick of `monitor_performance` over a snapshot of the registry. -/
def monitor_performance_tick (now : ℚ)
    (cbs : List EnhancedInstanceCallback) : DashboardReport :=
  let total_fps := (cbs.map (avg_fps now)).sum
  let total_frames := (cbs.map EnhancedInstanceCallback.count).sum
  let total_detections :=
    (cbs.map EnhancedInstanceCallback.total_detections).sum
  let efficiency :=
    if 0 < cbs.length then (total_fps / ((cbs.length : ℚ) * 30)) * 100 else 0
  { total_fps := total_fps, total_frames := total_frames,
    total_detections := total_detections, num_reported := cbs.length,
    efficiency := efficiency }

/-- C6: when every worker has positive runtime and the snapshot is nonempty,
the tick's combined FPS is the sum of per-worker lifetime averages
`frames / seconds`, and the efficiency is that sum divided by the worker
count times the 30-FPS ceiling, times 100. -/
theorem monitor_tick_formulas (now : ℚ) (cbs : List EnhancedInstanceCallback)
    (hpos : ∀ c ∈ cbs, c.start_time < now) (hne : cbs ≠ []) :
    (monitor_performance_tick now cbs).total_fps
      = (cbs.map (fun c => (c.count : ℚ) / (now - c.start_time))).sum
    ∧ (monitor_performance_tick now cbs).efficiency
      = ((cbs.map (fun c => (c.count : ℚ) / (now - c.start_time))).sum
          / ((cbs.length : ℚ) * 30)) * 100 := by
  have hmap : cbs.map (avg_fps now)
      = cbs.map (fun c => (c.count : ℚ) / (now - c.start_time)) := by
    apply List.map_congr_left
    intro c hc
    have hrt : 0 < now - c.start_time := sub_pos.mpr (hpos c hc)
    simp [avg_fps, hrt]
  have hlen : 0 < cbs.length := List.length_pos.mpr hne
  constructor
  · simp [monitor_performance_tick, hmap]
  · simp [monitor_performance_tick, hmap, hlen]

/-- Snapshot entry for the dashboard witnesses: worker 0 started at time 0
and has processed 30 frames. -/
def demoCallback : EnhancedInstanceCallback :=
  { EnhancedInstanceCallback.init 0 0 with count := 30 }

/-- Witness for C6 on a one-worker snapshot observed at time 1. -/
theorem monitor_tick_formulas_witness :
    (monitor_performance_tick 1 [demoCallback]).total_fps
      = ([demoCallback].map
          (fun c => (c.count : ℚ) / (1 - c.start_time))).sum
    ∧ (monitor_performance_tick 1 [demoCallback]).efficiency
      = (([demoCallback].map
            (fun c => (c.count : ℚ) / (1 - c.start_time))).sum
          / (([demoCallback].length : ℚ) * 30)) * 100 :=
  monitor_tick_formulas 1 [demoCallback]
    (by
      intro c hc
      rw [List.mem_singleton.mp hc]
      norm_num [demoCallback, EnhancedInstanceCallback.init])
    (by simp)

/-- C9: a dashboard tick is total on every snapshot; the empty snapshot
yields the all-zero report (efficiency 0), the per-worker average is 0 when
the runtime is not positive, and a zero-length snapshot yields efficiency 0,
so neither division is ever taken with a zero denominator. -/
theorem monitor_tick_safe (now : ℚ) (c : EnhancedInstanceCallback)
    (cbs : List EnhancedInstanceCallback) :
    monitor_performance_tick now []
      = { total_fps := 0, total_frames := 0, total_detections := 0,
          num_reported := 0, efficiency := 0 }
    ∧ (now - c.start_time ≤ 0 → avg_fps now c = 0)
    ∧ (cbs.length = 0 → (monitor_performance_tick now cbs).efficiency = 0) := by
  refine ⟨rfl, ?_, ?_⟩
  · intro h
    simp [avg_fps, not_lt.mpr h]
  · intro h
    simp [monitor_performance_tick, h]

/-- Witness for C9: a worker whose start time lies in the future of the tick
reports average 0, and the empty snapshot reports efficiency 0. -/
theorem monitor_tick_safe_witness :
    avg_fps 0 (EnhancedInstanceCallback.init 0 1) = 0
    ∧ (monitor_performance_tick 0
        ([] : List EnhancedInstanceCallback)).efficiency = 0 :=
  ⟨(monitor_tick_safe 0 (EnhancedInstanceCallback.init 0 1) []).2.1
      (by norm_num [EnhancedInstanceCallback.init]),
   (monitor_tick_safe 0 (EnhancedInstanceCallback.init 0 1) []).2.2 rfl⟩

/-! ## Main health loop (`main` in `multi_instance_detection.py`)

After launching the worker threads, `main` loops forever: every second it
counts the threads that are still alive and, when fewer than
`num_instances` remain, prints a warning. It never creates a new thread,
never tracks restart counts, and never modifies the pool. -/

/-- State observed by the supervisor's loop: per-slot thread liveness plus
the number of warnings printed so far. -/
structure SupervisorState where
  threads_alive : List Bool
  warnings : ℕ
deriving DecidableEq

/-- Count of live worker threads
(`alive_threads = [t for t in threads if t.is_alive()]`). -/
def countAlive (s : SupervisorState) : ℕ :=
  s.threads_alive.countP (fun b => b)

/-- One iteration of the `while True` loop in `main`: warn when fewer than
`n` threads are alive, otherwise do nothing. -/
def health_check (n : ℕ) (s : SupervisorState) : SupervisorState :=
  if countAlive s < n then { s with warnings := s.warnings + 1 } else s

/-- Pool with worker 3 crashed and no warnings issued yet. -/
def crashedState : SupervisorState :=
  { threads_alive := [true, true, true, false], warnings := 0 }

/-- C3 counterexample: with worker slot 3 crashed (and its restart count
necessarily 0, below any positive budget, since the code tracks none), one
full health-loop period leaves the pool unchanged — no new worker is
created for the slot. -/
theorem health_check_no_restart :
    crashedState.threads_alive.getD 3 true = false
    ∧ (health_check num_instances crashedState).threads_alive
        = [true, true, true, false]
    ∧ (health_check num_instances crashedState).threads_alive.getD 3 true
        = false := by
  decide

/-- C3 (amended): the health loop is a pure observer — over any number of
periods it never changes the thread pool, so a crashed slot is never
relaunched and the live count never recovers. -/
theorem health_check_never_restarts (n k : ℕ) (s : SupervisorState) :
    ((health_check n)^[k] s).threads_alive = s.threads_alive
    ∧ countAlive ((health_check n)^[k] s) = countAlive s := by
  induction k generalizing s with
  | zero => simp
  | succ k ih =>
      rw [Function.iterate_succ_apply]
      have hstep : (health_check n s).threads_alive = s.threads_alive := by
        unfold health_check
        split <;> rfl
      refine ⟨?_, ?_⟩
      · rw [(ih (health_check n s)).1, hstep]
      · rw [(ih (health_check n s)).2]
        unfold countAlive
        rw [hstep]

/-! ## Per-worker failure containment (`run_instance`)

`run_instance` wraps the construction and run of the app in
`try: ... except Exception as e: print(...)`: any exception is caught and
logged, never re-raised into the launching thread. The opaque worker body
(pipeline construction and run) is modelled as an `Except` value. -/

/-- Result of one worker's runner: either a normal completion or a caught,
logged exception. -/
inductive WorkerOutcome
  | completed
  | logged_error (msg : String)
deriving DecidableEq

/-- The `try/except` wrapper of `run_instance`. -/
def run_instance (body : Except String Unit) : WorkerOutcome :=
  match body with
  | Except.ok _ => WorkerOutcome.completed
  | Except.error e => WorkerOutcome.logged_error e

/-- `main` launching one runner thread per worker body. -/
def launch_all (bodies : List (Except String Unit)) : List WorkerOutcome :=
  bodies.map run_instance

/-- C7: a worker exception is caught and logged instead of propagating,
every launched worker slot yields an outcome (the supervisor survives every
combination of failures), and a slot's outcome is a function of its own
body alone, so other workers are unaffected. -/
theorem run_instance_contains_failures (bodies : List (Except String Unit))
    (e : String) (i : ℕ) :
    run_instance (Except.error e) = WorkerOutcome.logged_error e
    ∧ (launch_all bodies).length = bodies.length
    ∧ (launch_all bodies)[i]? = (bodies[i]?).map run_instance := by
  refine ⟨rfl, by simp [launch_all], ?_⟩
  simp [launch_all]

/-! ## Pipeline-string transformation (`get_pipeline_string`)

`YOLOv11lDetectionApp.get_pipeline_string` takes the parent's pipeline
string, substitutes `hailonet vdevice-group-id={instance_id + 1}` for the
`hailonet` element, and for every instance other than 0 substitutes
`fakesink sync=false` for the `fpsdisplaysink` display sink. The pipeline is
modelled at element-token granularity. -/

/-- Name of the inference element in the base pipeline. -/
def hailonetToken : String := "hailonet"

/-- Name of the display sink in the base pipeline. -/
def displaySinkToken : String := "fpsdisplaysink"

/-- Replacement sink for the non-display instances. -/
def fakesinkToken : String := "fakesink sync=false"

/-- Element-level substitution, the model of `str.replace` on the pipeline. -/
def replaceElem (p : List String) (a b : String) : List String :=
  p.map (fun e => if e = a then b else e)

/-- The instance-specific pipeline of `get_pipeline_string`. -/
def get_pipeline_string (instance_id : ℕ) (base : List String) :
    List String :=
  let p := replaceElem base hailonetToken
    (hailonetToken ++ " vdevice-group-id="
      ++ toString (vdevice_group_id instance_id))
  if 0 < instance_id then replaceElem p displaySinkToken fakesinkToken else p

theorem mem_replaceElem_of_ne (p : List String) (a b c : String)
    (hc : c ∈ p) (hca : c ≠ a) : c ∈ replaceElem p a b :=
  List.mem_map.mpr ⟨c, hc, if_neg hca⟩

theorem mem_replaceElem_of_mem (p : List String) (a b : String)
    (ha : a ∈ p) : b ∈ replaceElem p a b :=
  List.mem_map.mpr ⟨a, ha, if_pos rfl⟩

theorem not_mem_replaceElem (p : List String) (a b : String) (hab : b ≠ a) :
    a ∉ replaceElem p a b := by
  intro hmem
  rcases List.mem_map.mp hmem with ⟨e, he, heq⟩
  by_cases hea : e = a
  · rw [if_pos hea] at heq
    exact hab heq
  · rw [if_neg hea] at heq
    exact hea heq

/-- C8: when the base pipeline contains the display sink, exactly the worker
with index 0 keeps it; every worker with positive index has it replaced by
the non-displaying `fakesink`. -/
theorem display_exactly_instance_zero (n : ℕ) (base : List String)
    (hbase : displaySinkToken ∈ base) :
    (∀ i, i < n → (displaySinkToken ∈ get_pipeline_string i base ↔ i = 0))
    ∧ (∀ i, 0 < i → fakesinkToken ∈ get_pipeline_string i base
        ∧ displaySinkToken ∉ get_pipeline_string i base)
    ∧ displaySinkToken ∈ get_pipeline_string 0 base := by
  have hd_ne_h : displaySinkToken ≠ hailonetToken := by decide
  have hf_ne_d : fakesinkToken ≠ displaySinkToken := by decide
  have hmem1 : ∀ i, displaySinkToken ∈ replaceElem base hailonetToken
      (hailonetToken ++ " vdevice-group-id="
        ++ toString (vdevice_group_id i)) :=
    fun i => mem_replaceElem_of_ne base _ _ _ hbase hd_ne_h
  have hzero : displaySinkToken ∈ get_pipeline_string 0 base := by
    simp only [get_pipeline_string]
    rw [if_neg (by omega)]
    exact hmem1 0
  have hpos : ∀ i, 0 < i → fakesinkToken ∈ get_pipeline_string i base
      ∧ displaySinkToken ∉ get_pipeline_string i base := by
    intro i hi
    simp only [get_pipeline_string]
    rw [if_pos hi]
    exact ⟨mem_replaceElem_of_mem _ _ _ (hmem1 i),
      not_mem_replaceElem _ _ _ hf_ne_d⟩
  refine ⟨?_, hpos, hzero⟩
  intro i _
  constructor
  · intro hmem
    by_contra hi0
    exact (hpos i (Nat.pos_of_ne_zero hi0)).2 hmem
  · intro hi0
    subst hi0
    exact hzero

/-- Base pipeline used for the C8 witness: a source, the inference element,
the callback identity and the display sink. -/
def demoBasePipeline : List String :=
  ["libcamerasrc", "hailonet", "identity", "fpsdisplaysink"]

/-- Witness for C8 on the four-instance launch over the demo base pipeline. -/
theorem display_exactly_instance_zero_witness :
    (∀ i, i < num_instances →
      (displaySinkToken ∈ get_pipeline_string i demoBasePipeline ↔ i = 0))
    ∧ (∀ i, 0 < i →
        fakesinkToken ∈ get_pipeline_string i demoBasePipeline
        ∧ displaySinkToken ∉ get_pipeline_string i demoBasePipeline)
    ∧ displaySinkToken ∈ get_pipeline_string 0 demoBasePipeline :=
  display_exactly_instance_zero num_instances demoBasePipeline (by decide)

end MultiInstanceDetection
